import Mathlib

/-!
Shallow embedding of src/models.py (kernel ridge regression and
classification) and proofs about the claims of the specification.

Real numbers of the Python code are modelled as rationals (ℚ); numpy
arrays and Python lists as Lean lists; Python exceptions as an
explicit error type threaded through Except.  The kernel objects
(kernels.py), the augmentation routine and the HOG extractor
(utils.py) are not part of the provided source; following the spec
they are treated as pluggable collaborators and modelled abstractly.
-/

namespace Models

/-- The Python exceptions that the embedded code can raise. -/
inductive PyError where
  | keyError (k : String)
  | attributeError (msg : String)
  | valueError (msg : String)
  | typeError (msg : String)
  | indexError (i : Int)
deriving DecidableEq, Repr

/-- Modelled from the spec: a kernel object (class of the missing
kernels.py) stores the training set it was constructed from and a
similarity function between samples (section 4.1 of the spec). -/
structure KernelObj (α : Type) where
  train : List α
  k : α → α → ℚ

/-- Modelled from the spec: the full pairwise similarity matrix of the
stored training set (spec 4.1, similarity_matrix). -/
def KernelObj.similarity_matrix {α : Type} (K : KernelObj α) : List (List ℚ) :=
  K.train.map (fun xi => K.train.map (fun xj => K.k xi xj))

/-- Modelled from the spec: the length-N vector of similarities of a new
sample to every training sample (spec 4.1, similarity). -/
def KernelObj.similarity {α : Type} (K : KernelObj α) (x : α) : List ℚ :=
  K.train.map (fun xi => K.k x xi)

/-- Modelled from the spec: the registry of supported kernels
(the kernels dictionary of the missing kernels.py), mapping a kernel
name to a constructor taking the training set and the scale parameter. -/
def Registry (α : Type) : Type := String → Option (List α → ℚ → KernelObj α)

/-- A model of scipy.linalg.solve with the positive-definite hint: an
external linear-solve primitive (spec section 6). -/
def Solver : Type := List (List ℚ) → List ℚ → List ℚ

/-- np.dot of two vectors. -/
def dot (a b : List ℚ) : ℚ :=
  (List.zipWith (· * ·) a b).sum

/-- Matrix-vector product, used to state what it means for a vector to
solve a linear system. -/
def matVecMul (A : List (List ℚ)) (x : List ℚ) : List ℚ :=
  A.map (fun row => dot row x)

/-- np.zeros_like on a matrix. -/
def zerosLike (M : List (List ℚ)) : List (List ℚ) :=
  M.map (fun row => row.map (fun _ => (0 : ℚ)))

/-- np.fill_diagonal M c: entry (i, i) of row i becomes c. -/
def fillDiagonal (M : List (List ℚ)) (c : ℚ) : List (List ℚ) :=
  List.zipWith (fun i row => row.set i c) (List.range M.length) M

/-- Elementwise matrix addition (the += of the source). -/
def matAdd (A B : List (List ℚ)) : List (List ℚ) :=
  List.zipWith (List.zipWith (· + ·)) A B

/-- Lines 31-33 of models.py: diag = np.zeros_like(K);
np.fill_diagonal(diag, c); K += diag. -/
def addRidge (K : List (List ℚ)) (c : ℚ) : List (List ℚ) :=
  matAdd K (fillDiagonal (zerosLike K) c)

/-- Entry (i, j) of a matrix, with numpy-free default reading. -/
def entry (A : List (List ℚ)) (i j : ℕ) : ℚ :=
  (A.getD i []).getD j 0

/-- State of a KernelRidgeRegressor instance: the attributes its
constructor introduces. -/
structure KernelRidgeRegressor (α : Type) where
  C : ℚ
  kernel : String
  gamma : ℚ
  K : Option (KernelObj α)
  alpha : Option (List ℚ)

namespace KernelRidgeRegressor

/-- KernelRidgeRegressor.__init__ (models.py lines 14-19): stores the
hyperparameters and sets K and alpha to None.  It performs no kernel
lookup and cannot fail. -/
def init {α : Type} (C : ℚ) (kernel : String) (gamma : ℚ) :
    KernelRidgeRegressor α :=
  { C := C, kernel := kernel, gamma := gamma, K := none, alpha := none }

/-- KernelRidgeRegressor.fit (models.py lines 21-35): looks the kernel
name up in the registry (KeyError if absent), builds the kernel object
from X and gamma, computes the similarity matrix, adds C*len(X) to its
diagonal and solves the system for alpha. -/
def fit {α : Type} (kernels : Registry α) (solve : Solver)
    (s : KernelRidgeRegressor α) (X : List α) (y : List ℚ) :
    Except PyError (KernelRidgeRegressor α) :=
  match kernels s.kernel with
  | none => Except.error (PyError.keyError s.kernel)
  | some ctor =>
    let Kobj := ctor X s.gamma
    let K := Kobj.similarity_matrix
    let Kreg := addRidge K (s.C * X.length)
    Except.ok { s with K := some Kobj, alpha := some (solve Kreg y) }

/-- One iteration of the prediction loop of KernelRidgeRegressor.predict
(models.py lines 40-42): self.K.similarity(x) raises AttributeError when
self.K is None (predict before fit); np.dot(self.alpha, similarity)
fails when self.alpha is None (branch unreachable from init/fit, whose
exact numpy exception is immaterial here). -/
def predictOne {α : Type} (s : KernelRidgeRegressor α) (x : α) :
    Except PyError ℚ :=
  match s.K with
  | none => Except.error (PyError.attributeError ("NoneType object has no attribute similarity"))
  | some Kobj =>
    let similarity := Kobj.similarity x
    match s.alpha with
    | none => Except.error (PyError.typeError ("unsupported operand for dot"))
    | some alpha => Except.ok (dot alpha similarity)

/-- KernelRidgeRegressor.predict (models.py lines 37-43): one prediction
per input sample, collected in input order. -/
def predict {α : Type} (s : KernelRidgeRegressor α) (X : List α) :
    Except PyError (List ℚ) :=
  X.mapM (predictOne s)

end KernelRidgeRegressor

/-- Insert an integer into a sorted duplicate-free list, keeping it
sorted and duplicate-free. -/
def insertSortedDedup (x : ℤ) : List ℤ → List ℤ
  | [] => [x]
  | y :: ys =>
    if x < y then x :: y :: ys
    else if x = y then y :: ys
    else y :: insertSortedDedup x ys

/-- Python sorted(set(l)): the distinct elements of l in increasing
order. -/
def sortedDedup (l : List ℤ) : List ℤ :=
  l.foldr insertSortedDedup []

/-- Model of sklearn LabelBinarizer(pos_label=1, neg_label=-1)
.fit_transform(y): classes are sorted(unique(y)); with three or more
classes the result is an N x k matrix whose row for a sample holds 1 at
its class column and -1 elsewhere; with exactly two classes sklearn
returns a single column (1 where the label is the larger class, -1
where it is the smaller); with one class a single all -1 column; with
an empty input it raises ValueError. -/
def labelBinarize (y : List ℤ) : Except PyError (List (List ℚ)) :=
  let classes := sortedDedup y
  if classes.length = 0 then
    Except.error (PyError.valueError ("y has 0 samples"))
  else if classes.length = 1 then
    Except.ok (y.map (fun _ => [(-1 : ℚ)]))
  else if classes.length = 2 then
    Except.ok (y.map (fun v => [if v = classes.getD 1 0 then (1 : ℚ) else -1]))
  else
    Except.ok (y.map (fun v => classes.map (fun c => if v = c then (1 : ℚ) else -1)))

/-- numpy column indexing Y[:, c] for an integer c: a negative index
wraps around once, anything outside [-ncols, ncols) raises IndexError. -/
def npColIndex (ncols : ℕ) (c : ℤ) : Option ℕ :=
  if 0 ≤ c ∧ c < (ncols : ℤ) then some c.toNat
  else if -(ncols : ℤ) ≤ c ∧ c < 0 then some (c + ncols).toNat
  else none

/-- Number of columns of a matrix stored as a list of rows. -/
def numCols (Y : List (List ℚ)) : ℕ :=
  (Y.headD []).length

/-- Column j of a matrix stored as a list of rows. -/
def getCol (Y : List (List ℚ)) (j : ℕ) : List ℚ :=
  Y.map (fun row => row.getD j 0)

/-- numpy Y[:, c] with a Python int c: resolve the (possibly negative)
column index against the number of columns, raising IndexError when out
of range, and extract the column. -/
def npCol (Y : List (List ℚ)) (c : ℤ) : Except PyError (List ℚ) :=
  match npColIndex (numCols Y) c with
  | none => Except.error (PyError.indexError c)
  | some j => Except.ok (getCol Y j)

/-- Loop of np.argmax: index of the current best, replaced only on a
strictly greater value, so the first occurrence of the maximum wins. -/
def argmaxAux (best : ℚ) (bi i : ℕ) : List ℚ → ℕ
  | [] => bi
  | v :: vs => if best < v then argmaxAux v i (i + 1) vs else argmaxAux best bi (i + 1) vs

/-- np.argmax on a list: first index achieving the maximum; ValueError
on an empty sequence. -/
def npArgmax : List ℚ → Except PyError ℕ
  | [] => Except.error (PyError.valueError ("attempt to get argmax of an empty sequence"))
  | v :: vs => Except.ok (argmaxAux v 0 1 vs)

/-- State of a KernelRidgeClassifier instance. -/
structure KernelRidgeClassifier (α : Type) where
  C : ℚ
  kernel : String
  gamma : ℚ
  K : Option (KernelObj α)
  alpha : Option (List (List ℚ))

namespace KernelRidgeClassifier

/-- KernelRidgeClassifier.__init__ (models.py lines 48-53). -/
def init {α : Type} (C : ℚ) (kernel : String) (gamma : ℚ) :
    KernelRidgeClassifier α :=
  { C := C, kernel := kernel, gamma := gamma, K := none, alpha := none }

/-- KernelRidgeClassifier.fit (models.py lines 55-75): binarize the
labels to a {1, -1} matrix, look the kernel up, build and regularize
the similarity matrix, then for each c in sorted(set(y)) solve against
the column Y[:, c] (note: the label value c itself is used as the
column index). -/
def fit {α : Type} (kernels : Registry α) (solve : Solver)
    (s : KernelRidgeClassifier α) (X : List α) (y : List ℤ) :
    Except PyError (KernelRidgeClassifier α) :=
  match labelBinarize y with
  | Except.error e => Except.error e
  | Except.ok Y =>
    match kernels s.kernel with
    | none => Except.error (PyError.keyError s.kernel)
    | some ctor =>
      let Kobj := ctor X s.gamma
      let K := Kobj.similarity_matrix
      let Kreg := addRidge K (s.C * X.length)
      match (sortedDedup y).mapM (fun c =>
        (npCol Y c).map (fun col => solve Kreg col)) with
      | Except.error e => Except.error e
      | Except.ok alphas => Except.ok { s with K := some Kobj, alpha := some alphas }

/-- One iteration of the prediction loop of
KernelRidgeClassifier.predict (models.py lines 80-82): similarity
vector of x, one dot product per stored coefficient vector, argmax of
the scores. -/
def predictOne {α : Type} (s : KernelRidgeClassifier α) (x : α) :
    Except PyError ℕ :=
  match s.K with
  | none => Except.error (PyError.attributeError ("NoneType object has no attribute similarity"))
  | some Kobj =>
    let similarity := Kobj.similarity x
    match s.alpha with
    | none => Except.error (PyError.typeError ("NoneType object is not iterable"))
    | some alphas => npArgmax (alphas.map (fun alpha => dot alpha similarity))

/-- KernelRidgeClassifier.predict (models.py lines 77-83). -/
def predict {α : Type} (s : KernelRidgeClassifier α) (X : List α) :
    Except PyError (List ℕ) :=
  X.mapM (predictOne s)

end KernelRidgeClassifier

/-- Modelled from the spec: the type of the augment_dataset collaborator
of the missing utils.py, taking X, y, flip_ratio, rot_replicas,
rot_ratio, rot_angle and returning the expanded dataset (spec section
6). -/
def Augmenter (α : Type) : Type :=
  List α → List ℤ → ℚ → ℕ → ℚ → ℚ → (List α × List ℤ)

/-- State of an AugmentedHogsKernelRidgeClassifier instance; the
hog_extractor field models the HOGExtractor collaborator instance
created in the constructor (transform: samples to feature vectors,
spec section 6). -/
structure AugmentedHogsKernelRidgeClassifier (α β : Type) where
  C : ℚ
  kernel : String
  gamma : ℚ
  flip_ratio : ℚ
  rot_replicas : ℕ
  rot_ratio : ℚ
  rot_angle : ℚ
  hog_extractor : List α → List β
  K : Option (KernelObj β)
  alpha : Option (List (List ℚ))

namespace AugmentedHogsKernelRidgeClassifier

/-- AugmentedHogsKernelRidgeClassifier.__init__ (models.py lines
88-98): stores the hyperparameters, creates the HOG extractor, sets K
and alpha to None. -/
def init {α β : Type} (C : ℚ) (kernel : String) (gamma : ℚ)
    (flip_ratio : ℚ) (rot_replicas : ℕ) (rot_ratio : ℚ) (rot_angle : ℚ)
    (hog : List α → List β) : AugmentedHogsKernelRidgeClassifier α β :=
  { C := C, kernel := kernel, gamma := gamma, flip_ratio := flip_ratio,
    rot_replicas := rot_replicas, rot_ratio := rot_ratio,
    rot_angle := rot_angle, hog_extractor := hog, K := none, alpha := none }

/-- Lines 105-124 of models.py: the part of
AugmentedHogsKernelRidgeClassifier.fit that runs after augmentation and
feature extraction, identical to the plain classifier fit. -/
def fitOnFeatures {α β : Type} (kernels : Registry β) (solve : Solver)
    (s : AugmentedHogsKernelRidgeClassifier α β) (X : List β) (y : List ℤ) :
    Except PyError (AugmentedHogsKernelRidgeClassifier α β) :=
  match labelBinarize y with
  | Except.error e => Except.error e
  | Except.ok Y =>
    match kernels s.kernel with
    | none => Except.error (PyError.keyError s.kernel)
    | some ctor =>
      let Kobj := ctor X s.gamma
      let K := Kobj.similarity_matrix
      let Kreg := addRidge K (s.C * X.length)
      match (sortedDedup y).mapM (fun c =>
        (npCol Y c).map (fun col => solve Kreg col)) with
      | Except.error e => Except.error e
      | Except.ok alphas => Except.ok { s with K := some Kobj, alpha := some alphas }

/-- AugmentedHogsKernelRidgeClassifier.fit (models.py lines 100-124):
augment the dataset, extract HOG features, then proceed exactly as the
plain classifier fit. -/
def fit {α β : Type} (kernels : Registry β) (solve : Solver)
    (augment_dataset : Augmenter α)
    (s : AugmentedHogsKernelRidgeClassifier α β) (X : List α) (y : List ℤ) :
    Except PyError (AugmentedHogsKernelRidgeClassifier α β) :=
  let Xy := augment_dataset X y s.flip_ratio s.rot_replicas s.rot_ratio s.rot_angle
  let Xh := s.hog_extractor Xy.1
  fitOnFeatures kernels solve s Xh Xy.2

/-- One iteration of the prediction loop of
AugmentedHogsKernelRidgeClassifier.predict (models.py lines 131-133),
identical to the plain classifier loop. -/
def predictOne {α β : Type} (s : AugmentedHogsKernelRidgeClassifier α β)
    (x : β) : Except PyError ℕ :=
  match s.K with
  | none => Except.error (PyError.attributeError ("NoneType object has no attribute similarity"))
  | some Kobj =>
    let similarity := Kobj.similarity x
    match s.alpha with
    | none => Except.error (PyError.typeError ("NoneType object is not iterable"))
    | some alphas => npArgmax (alphas.map (fun alpha => dot alpha similarity))

/-- AugmentedHogsKernelRidgeClassifier.predict (models.py lines
126-134): extract HOG features of the new samples (no augmentation),
then predict per sample. -/
def predict {α β : Type} (s : AugmentedHogsKernelRidgeClassifier α β)
    (X : List α) : Except PyError (List ℕ) :=
  (s.hog_extractor X).mapM (predictOne s)

end AugmentedHogsKernelRidgeClassifier

/-- A concrete instance of the pluggable kernel collaborator used to
evaluate the theorems on concrete inputs: a registry holding one
kernel, the discrete (delta) kernel on rational samples, a valid
positive semi-definite kernel. -/
def demoKernels : Registry ℚ :=
  fun name =>
    if name = "delta" then
      some (fun X _ => { train := X, k := fun a b => if a = b then 1 else 0 })
    else none

/-- The delta kernel object on rational samples, used for concrete
evaluations. -/
def deltaK (train : List ℚ) : KernelObj ℚ :=
  { train := train, k := fun a b => if a = b then 1 else 0 }

/-- The identity instance of the augmentation collaborator, used for
concrete evaluations. -/
def demoAugment : Augmenter ℚ := fun X y _ _ _ _ => (X, y)

/-- The one-vs-all {1, -1} target column of a class c, as the spec
describes the label-encoding collaborator (spec sections 3 and 6). -/
def specOneVsAll (y : List ℤ) (c : ℤ) : List ℚ :=
  y.map (fun v => if v = c then 1 else -1)

/-- A concrete instance of the linear-solve collaborator.  It is a
correct solver for systems whose matrix is twice the identity, and the
concrete scenarios below arrange C * len(X) and the delta kernel so
that the regularized matrix is exactly that. -/
def halfSolve : Solver :=
  fun _ b => b.map (fun t => t / 2)

/-! General lemmas about the embedded operations. -/

theorem get?_of_lt {γ : Type} (l : List γ) (i : ℕ) (hi : i < l.length) (d : γ) :
    l.get? i = some (l.getD i d) := by
  cases h : l.get? i with
  | none =>
    have := List.get?_eq_none.mp h
    omega
  | some a =>
    rw [List.getD_eq_getD_get?, h]
    rfl

theorem addRidge_row (K : List (List ℚ)) (c : ℚ) (i : ℕ) (hi : i < K.length) :
    (addRidge K c).get? i =
      some (List.zipWith (· + ·) (K.getD i [])
        (((K.getD i []).map (fun _ => (0 : ℚ))).set i c)) := by
  have hKi : K.get? i = some (K.getD i []) := get?_of_lt K i hi []
  unfold addRidge matAdd fillDiagonal zerosLike
  rw [List.get?_zipWith', List.get?_zipWith', List.get?_map, hKi]
  rw [List.get?_range (by simpa using hi)]
  rfl

theorem addRidge_entry (K : List (List ℚ)) (c : ℚ) (i j : ℕ)
    (hi : i < K.length) (hj : j < (K.getD i []).length) :
    entry (addRidge K c) i j = entry K i j + (if i = j then c else 0) := by
  have hrow := addRidge_row K c i hi
  have hrowD : (addRidge K c).getD i [] =
      List.zipWith (· + ·) (K.getD i [])
        (((K.getD i []).map (fun _ => (0 : ℚ))).set i c) := by
    rw [List.getD_eq_getD_get?, hrow]
    rfl
  unfold entry
  rw [hrowD]
  rw [List.getD_eq_getD_get?, List.get?_zipWith']
  rw [get?_of_lt (K.getD i []) j hj 0]
  rw [List.get?_set]
  by_cases hij : i = j
  · subst hij
    rw [if_pos rfl]
    rw [get?_of_lt ((K.getD i []).map (fun _ => (0 : ℚ))) i (by simpa using hj) 0]
    simp [List.getD_eq_getD_get?]
  · rw [if_neg hij]
    rw [get?_of_lt ((K.getD i []).map (fun _ => (0 : ℚ))) j (by simpa using hj) 0]
    have : ((K.getD i []).map (fun _ => (0 : ℚ))).getD j 0 = 0 := by
      rw [List.getD_eq_getD_get?, List.get?_map, get?_of_lt (K.getD i []) j hj 0]
      rfl
    rw [this]
    simp [List.getD_eq_getD_get?, hij]

theorem mapM_ok_of_forall {γ δ : Type} (f : γ → Except PyError δ) (g : γ → δ) :
    ∀ l : List γ, (∀ a ∈ l, f a = Except.ok (g a)) → l.mapM f = Except.ok (l.map g) := by
  intro l
  induction l with
  | nil => intro _; rfl
  | cons a l ih =>
    intro h
    rw [List.mapM_cons, h a (List.mem_cons_self a l),
      ih (fun b hb => h b (List.mem_cons_of_mem a hb))]
    rfl

theorem mapM_error_head {γ δ : Type} (f : γ → Except PyError δ) (a : γ) (l : List γ)
    (e : PyError) (h : f a = Except.error e) : (a :: l).mapM f = Except.error e := by
  rw [List.mapM_cons, h]
  rfl

theorem argmaxAux_spec : ∀ (vs : List ℚ) (best : ℚ) (bi i : ℕ),
    (argmaxAux best bi i vs = bi ∧ ∀ t, t < vs.length → vs.getD t 0 ≤ best) ∨
    (∃ t, t < vs.length ∧ argmaxAux best bi i vs = i + t ∧ best < vs.getD t 0 ∧
      (∀ u, u < vs.length → vs.getD u 0 ≤ vs.getD t 0) ∧
      (∀ u, u < t → vs.getD u 0 < vs.getD t 0)) := by
  intro vs
  induction vs with
  | nil =>
    intro best bi i
    left
    exact ⟨rfl, by intro t ht; simp at ht⟩
  | cons q vs ih =>
    intro best bi i
    have hstep : argmaxAux best bi i (q :: vs) =
        if best < q then argmaxAux q i (i + 1) vs else argmaxAux best bi (i + 1) vs := rfl
    by_cases hq : best < q
    · have hrec := ih q i (i + 1)
      rw [hstep, if_pos hq]
      rcases hrec with ⟨heq, hle⟩ | ⟨t, htlen, heq, hgt, hmax, hstrict⟩
      · right
        refine ⟨0, by simp, by rw [heq]; omega, hq, ?_, by intro u hu; omega⟩
        intro u hu
        cases u with
        | zero => exact le_refl _
        | succ u =>
          show vs.getD u 0 ≤ q
          exact hle u (by simpa using hu)
      · right
        refine ⟨t + 1, by simpa using htlen, by rw [heq]; omega,
          show best < vs.getD t 0 from lt_trans hq hgt, ?_, ?_⟩
        · intro u hu
          cases u with
          | zero =>
            show q ≤ vs.getD t 0
            exact le_of_lt hgt
          | succ u =>
            show vs.getD u 0 ≤ vs.getD t 0
            exact hmax u (by simpa using hu)
        · intro u hu
          cases u with
          | zero =>
            show q < vs.getD t 0
            exact hgt
          | succ u =>
            show vs.getD u 0 < vs.getD t 0
            exact hstrict u (by omega)
    · have hrec := ih best bi (i + 1)
      rw [hstep, if_neg hq]
      rcases hrec with ⟨heq, hle⟩ | ⟨t, htlen, heq, hgt, hmax, hstrict⟩
      · left
        refine ⟨heq, ?_⟩
        intro u hu
        cases u with
        | zero => exact le_of_not_lt hq
        | succ u =>
          show vs.getD u 0 ≤ best
          exact hle u (by simpa using hu)
      · right
        refine ⟨t + 1, by simpa using htlen, by rw [heq]; omega,
          show best < vs.getD t 0 from hgt, ?_, ?_⟩
        · intro u hu
          cases u with
          | zero =>
            show q ≤ vs.getD t 0
            exact le_trans (le_of_not_lt hq) (le_of_lt hgt)
          | succ u =>
            show vs.getD u 0 ≤ vs.getD t 0
            exact hmax u (by simpa using hu)
        · intro u hu
          cases u with
          | zero =>
            show q < vs.getD t 0
            exact lt_of_le_of_lt (le_of_not_lt hq) hgt
          | succ u =>
            show vs.getD u 0 < vs.getD t 0
            exact hstrict u (by omega)

theorem npArgmax_spec (l : List ℚ) (m : ℕ) (h : npArgmax l = Except.ok m) :
    m < l.length ∧ (∀ t, t < l.length → l.getD t 0 ≤ l.getD m 0) ∧
    (∀ t, t < m → l.getD t 0 < l.getD m 0) := by
  cases l with
  | nil => exact absurd h (by simp [npArgmax])
  | cons v vs =>
    have hm : argmaxAux v 0 1 vs = m := by
      have : Except.ok (argmaxAux v 0 1 vs) = (Except.ok m : Except PyError ℕ) := h
      exact Except.ok.inj this
    rcases argmaxAux_spec vs v 0 1 with ⟨heq, hle⟩ | ⟨t, htlen, heq, hgt, hmax, hstrict⟩
    · have hm0 : m = 0 := by omega
      subst hm0
      refine ⟨by simp, ?_, by intro t ht; omega⟩
      intro t ht
      cases t with
      | zero => exact le_refl _
      | succ u =>
        show vs.getD u 0 ≤ v
        exact hle u (by simpa using ht)
    · have hm1 : m = t + 1 := by omega
      subst hm1
      have hgm : (v :: vs).getD (t + 1) 0 = vs.getD t 0 := rfl
      refine ⟨by simpa using htlen, ?_, ?_⟩
      · intro u hu
        rw [hgm]
        cases u with
        | zero => exact le_of_lt hgt
        | succ u =>
          show vs.getD u 0 ≤ vs.getD t 0
          exact hmax u (by simpa using hu)
      · intro u hu
        rw [hgm]
        cases u with
        | zero => exact hgt
        | succ u =>
          show vs.getD u 0 < vs.getD t 0
          exact hstrict u (by omega)


/-- C1: for every training set X of size N and target vector y, fit
builds the regularized system by adding the constant C*N to the
diagonal of the kernel matrix K, leaving all off-diagonal entries
unchanged, and computes the dual coefficients alpha as the solution of
(K + C*N*I)*alpha = y, provided the external solver meets its contract
on that system. -/
theorem C1_fit_regularized_system {α : Type} (kernels : Registry α) (solve : Solver)
    (C gamma : ℚ) (name : String) (ctor : List α → ℚ → KernelObj α)
    (hname : kernels name = some ctor) (X : List α) (y : List ℚ)
    (hsolve : matVecMul (addRidge (ctor X gamma).similarity_matrix (C * X.length))
        (solve (addRidge (ctor X gamma).similarity_matrix (C * X.length)) y) = y) :
    KernelRidgeRegressor.fit kernels solve (KernelRidgeRegressor.init C name gamma) X y =
      Except.ok { C := C, kernel := name, gamma := gamma, K := some (ctor X gamma),
                  alpha := some (solve (addRidge (ctor X gamma).similarity_matrix (C * X.length)) y) } ∧
    (∀ i j, i < (ctor X gamma).similarity_matrix.length →
      j < ((ctor X gamma).similarity_matrix.getD i []).length →
      entry (addRidge (ctor X gamma).similarity_matrix (C * X.length)) i j =
        entry (ctor X gamma).similarity_matrix i j + (if i = j then C * X.length else 0)) ∧
    matVecMul (addRidge (ctor X gamma).similarity_matrix (C * X.length))
      (solve (addRidge (ctor X gamma).similarity_matrix (C * X.length)) y) = y := by
  refine ⟨?_, ?_, hsolve⟩
  · unfold KernelRidgeRegressor.fit KernelRidgeRegressor.init
    simp only [hname]
  · intro i j hi hj
    exact addRidge_entry _ _ i j hi hj

/-- Witness for C1: delta kernel on X = [0], y = [2], C = 1, so the
regularized matrix is [[2]] and the computed coefficients are [1]. -/
theorem C1_fit_regularized_system_witness :
    (KernelRidgeRegressor.fit demoKernels halfSolve
        (KernelRidgeRegressor.init 1 ("delta") 1) [(0 : ℚ)] [2]).map
      (fun s => s.alpha) = Except.ok (some [1]) := by
  have h := C1_fit_regularized_system demoKernels halfSolve 1 1 ("delta")
    (fun X _ => { train := X, k := fun a b => if a = b then 1 else 0 })
    rfl [0] [2] (by norm_num [matVecMul, addRidge, matAdd, fillDiagonal, zerosLike,
      KernelObj.similarity_matrix, halfSolve, dot, List.range_succ])
  rw [h.1]
  norm_num [halfSolve, addRidge, matAdd, fillDiagonal, zerosLike,
    KernelObj.similarity_matrix, Except.map, List.range_succ]

/-- C6: for every fitted regressor and every ordered sequence of new
samples, predict returns one scalar per input sample, in input order,
the prediction for x being dot(alpha, similarity(x)). -/
theorem C6_regressor_predict {α : Type} (s : KernelRidgeRegressor α)
    (Kobj : KernelObj α) (a : List ℚ) (hK : s.K = some Kobj)
    (ha : s.alpha = some a) (X : List α) :
    KernelRidgeRegressor.predict s X =
      Except.ok (X.map (fun x => dot a (Kobj.similarity x))) ∧
    (X.map (fun x => dot a (Kobj.similarity x))).length = X.length := by
  constructor
  · apply mapM_ok_of_forall
    intro x _
    unfold KernelRidgeRegressor.predictOne
    rw [hK, ha]
  · exact List.length_map X _

/-- Witness for C6: a fitted regressor with training set [0], alpha [1],
predicting on the two samples [0, 5]. -/
theorem C6_regressor_predict_witness :
    KernelRidgeRegressor.predict
      { C := 1, kernel := ("delta"), gamma := 1, K := some (deltaK [0]),
                alpha := some [1] } [(0 : ℚ), 5] = Except.ok [1, 0] := by
  have h := C6_regressor_predict
    { C := 1, kernel := ("delta"), gamma := 1, K := some (deltaK [0]), alpha := some [1] }
    (deltaK [0]) [1] rfl rfl [0, 5]
  rw [h.1]
  norm_num [dot, deltaK, KernelObj.similarity]


theorem insertSortedDedup_ne_nil (x : ℤ) (l : List ℤ) : insertSortedDedup x l ≠ [] := by
  cases l with
  | nil => simp [insertSortedDedup]
  | cons y ys =>
    unfold insertSortedDedup
    by_cases h1 : x < y
    · simp [h1]
    · by_cases h2 : x = y <;> simp [h1, h2]

theorem sortedDedup_ne_nil (l : List ℤ) (h : l ≠ []) : sortedDedup l ≠ [] := by
  cases l with
  | nil => exact absurd rfl h
  | cons a l => exact insertSortedDedup_ne_nil a (sortedDedup l)

theorem labelBinarize_ok_of_ne_nil (y : List ℤ) (h : y ≠ []) :
    ∃ Y, labelBinarize y = Except.ok Y := by
  have hne : sortedDedup y ≠ [] := sortedDedup_ne_nil y h
  have h0 : ¬((sortedDedup y).length = 0) := by
    intro hc
    exact hne (List.length_eq_zero.mp hc)
  unfold labelBinarize
  rw [if_neg h0]
  by_cases h1 : (sortedDedup y).length = 1
  · rw [if_pos h1]
    exact ⟨_, rfl⟩
  · rw [if_neg h1]
    by_cases h2 : (sortedDedup y).length = 2
    · rw [if_pos h2]
      exact ⟨_, rfl⟩
    · rw [if_neg h2]
      exact ⟨_, rfl⟩

/-- Counterexample to C2: constructing a regressor with the unsupported
kernel name bogus succeeds (the constructor stores the name and performs
no registry lookup), and the unsupported-kernel KeyError is raised only
when fit is later called. -/
theorem C2_counterexample :
    (KernelRidgeRegressor.init 1 ("bogus") 10 : KernelRidgeRegressor ℚ) =
      { C := 1, kernel := ("bogus"), gamma := 10, K := none, alpha := none } ∧
    KernelRidgeRegressor.fit demoKernels halfSolve
      (KernelRidgeRegressor.init 1 ("bogus") 10) [0] [1] =
      Except.error (PyError.keyError ("bogus")) := by
  constructor
  · rfl
  · rfl

/-- C2 amended: an estimator constructed with a kernel name outside the
registry is built without error (the constructor just stores the name),
and the KeyError surfaces when fit is called, both for the regressor
and for the classifier (for the classifier: on any nonempty label
vector, since labels are binarized before the kernel lookup). -/
theorem C2_amended_unsupported_kernel_at_fit {α : Type} (kernels : Registry α)
    (solve : Solver) (C gamma : ℚ) (name : String) (hname : kernels name = none)
    (X : List α) (y : List ℚ) (yc : List ℤ) (hyc : yc ≠ []) :
    (KernelRidgeRegressor.init C name gamma : KernelRidgeRegressor α).kernel = name ∧
    (KernelRidgeClassifier.init C name gamma : KernelRidgeClassifier α).kernel = name ∧
    KernelRidgeRegressor.fit kernels solve (KernelRidgeRegressor.init C name gamma) X y =
      Except.error (PyError.keyError name) ∧
    KernelRidgeClassifier.fit kernels solve (KernelRidgeClassifier.init C name gamma) X yc =
      Except.error (PyError.keyError name) := by
  refine ⟨rfl, rfl, ?_, ?_⟩
  · unfold KernelRidgeRegressor.fit KernelRidgeRegressor.init
    simp only [hname]
  · obtain ⟨Y, hY⟩ := labelBinarize_ok_of_ne_nil yc hyc
    unfold KernelRidgeClassifier.fit KernelRidgeClassifier.init
    rw [hY]
    simp only [hname]

/-- Witness for the amended C2 at a concrete input: kernel name bogus,
one training sample. -/
theorem C2_amended_unsupported_kernel_at_fit_witness :
    KernelRidgeRegressor.fit demoKernels halfSolve
      (KernelRidgeRegressor.init 1 ("bogus") 10) [(0 : ℚ)] [1] =
      Except.error (PyError.keyError ("bogus")) ∧
    KernelRidgeClassifier.fit demoKernels halfSolve
      (KernelRidgeClassifier.init 1 ("bogus") 10) [(0 : ℚ)] [0] =
      Except.error (PyError.keyError ("bogus")) := by
  have h := C2_amended_unsupported_kernel_at_fit demoKernels halfSolve 1 10 ("bogus")
    rfl [(0 : ℚ)] [1] [0] (by simp)
  exact ⟨h.2.2.1, h.2.2.2⟩

/-- Counterexample to C8: on an estimator on which fit has never been
called, predict on an empty input returns an empty prediction array and
raises no error at all (the per-sample loop body never runs). -/
theorem C8_counterexample :
    KernelRidgeRegressor.predict
      (KernelRidgeRegressor.init 1 ("rbf") 10 : KernelRidgeRegressor ℚ) [] =
      Except.ok [] ∧
    KernelRidgeClassifier.predict
      (KernelRidgeClassifier.init 1 ("rbf") 10 : KernelRidgeClassifier ℚ) [] =
      Except.ok [] := by
  constructor
  · rfl
  · rfl

/-- C8 amended: on an estimator on which fit has not been called, predict
raises AttributeError (the stored kernel is None) for every nonempty
input; on an empty input it returns an empty array without error. -/
theorem C8_amended_unfitted_predict {α : Type} (C gamma : ℚ) (name : String)
    (x : α) (X : List α) :
    KernelRidgeRegressor.predict (KernelRidgeRegressor.init C name gamma) (x :: X) =
      Except.error (PyError.attributeError ("NoneType object has no attribute similarity")) ∧
    KernelRidgeClassifier.predict (KernelRidgeClassifier.init C name gamma) (x :: X) =
      Except.error (PyError.attributeError ("NoneType object has no attribute similarity")) := by
  constructor
  · exact mapM_error_head _ x X _ rfl
  · exact mapM_error_head _ x X _ rfl

/-- Witness for the amended C8 at a concrete input: an unfitted regressor
and classifier asked to predict the single sample 5. -/
theorem C8_amended_unfitted_predict_witness :
    KernelRidgeRegressor.predict
      (KernelRidgeRegressor.init 1 ("rbf") 10 : KernelRidgeRegressor ℚ) [5] =
      Except.error (PyError.attributeError ("NoneType object has no attribute similarity")) ∧
    KernelRidgeClassifier.predict
      (KernelRidgeClassifier.init 1 ("rbf") 10 : KernelRidgeClassifier ℚ) [5] =
      Except.error (PyError.attributeError ("NoneType object has no attribute similarity")) :=
  C8_amended_unfitted_predict 1 10 ("rbf") 5 []


theorem mapM_ok_forall_mem {γ δ : Type} (f : γ → Except PyError δ) (P : δ → Prop)
    (hf : ∀ x r, f x = Except.ok r → P r) :
    ∀ (l : List γ) (out : List δ), l.mapM f = Except.ok out → ∀ v ∈ out, P v := by
  intro l
  induction l with
  | nil =>
    intro out h v hv
    have : out = [] := (Except.ok.inj h).symm
    subst this
    simp at hv
  | cons a l ih =>
    intro out h v hv
    rw [List.mapM_cons] at h
    rcases hfa : f a with e | r
    · rw [hfa] at h
      exact Except.noConfusion h
    · rw [hfa] at h
      rcases hrest : l.mapM f with e | rs
      · rw [hrest] at h
        exact Except.noConfusion h
      · rw [hrest] at h
        have : r :: rs = out := Except.ok.inj h
        subst this
        rcases List.mem_cons.mp hv with hv | hv
        · subst hv
          exact hf a v hfa
        · exact ih rs hrest v hv

theorem classifier_predictOne_lt {α : Type} (s : KernelRidgeClassifier α)
    (alphas : List (List ℚ)) (ha : s.alpha = some alphas) (x : α) (v : ℕ)
    (h : KernelRidgeClassifier.predictOne s x = Except.ok v) : v < alphas.length := by
  unfold KernelRidgeClassifier.predictOne at h
  rcases hK : s.K with _ | Kobj
  · rw [hK] at h
    exact Except.noConfusion h
  · rw [hK] at h
    rw [ha] at h
    have hspec := npArgmax_spec _ v h
    have := hspec.1
    simpa using this

theorem aug_predictOne_lt {α β : Type} (s : AugmentedHogsKernelRidgeClassifier α β)
    (alphas : List (List ℚ)) (ha : s.alpha = some alphas) (x : β) (v : ℕ)
    (h : AugmentedHogsKernelRidgeClassifier.predictOne s x = Except.ok v) :
    v < alphas.length := by
  unfold AugmentedHogsKernelRidgeClassifier.predictOne at h
  rcases hK : s.K with _ | Kobj
  · rw [hK] at h
    exact Except.noConfusion h
  · rw [hK] at h
    rw [ha] at h
    have hspec := npArgmax_spec _ v h
    have := hspec.1
    simpa using this

/-- C10: for every classifier state holding per-class coefficient
vectors (as produced by fit) and every input sample, the value predict
returns for that sample is an index into the coefficient array: a
natural number strictly below the number of stored coefficient vectors,
whatever the original training labels were.  This holds for the plain
and for the augmented classifier. -/
theorem C10_predict_returns_index {α β : Type} :
    (∀ (s : KernelRidgeClassifier α) (alphas : List (List ℚ)) (X : List α)
      (out : List ℕ), s.alpha = some alphas →
      KernelRidgeClassifier.predict s X = Except.ok out →
      ∀ v ∈ out, v < alphas.length) ∧
    (∀ (s : AugmentedHogsKernelRidgeClassifier α β) (alphas : List (List ℚ))
      (X : List α) (out : List ℕ), s.alpha = some alphas →
      AugmentedHogsKernelRidgeClassifier.predict s X = Except.ok out →
      ∀ v ∈ out, v < alphas.length) := by
  constructor
  · intro s alphas X out ha hout
    exact mapM_ok_forall_mem _ _ (fun x r h => classifier_predictOne_lt s alphas ha x r h)
      X out hout
  · intro s alphas X out ha hout
    exact mapM_ok_forall_mem _ _ (fun x r h => aug_predictOne_lt s alphas ha x r h)
      (s.hog_extractor X) out hout

/-- Witness for C10: a classifier with three coefficient vectors
predicts index 2 on the concrete sample 1, and 2 is below 3. -/
theorem C10_predict_returns_index_witness :
    KernelRidgeClassifier.predict
      { C := 1/3, kernel := ("delta"), gamma := 1, K := some (deltaK [0, 1, 2]),
        alpha := some [[-(1/2), -(1/2), 1/2], [1/2, -(1/2), -(1/2)], [-(1/2), 1/2, -(1/2)]] }
      [(1 : ℚ)] = Except.ok [2] ∧ 2 < 3 := by
  have hpred : KernelRidgeClassifier.predict
      { C := 1/3, kernel := ("delta"), gamma := 1, K := some (deltaK [0, 1, 2]),
        alpha := some [[-(1/2), -(1/2), 1/2], [1/2, -(1/2), -(1/2)], [-(1/2), 1/2, -(1/2)]] }
      [(1 : ℚ)] = Except.ok [2] := by
    norm_num [KernelRidgeClassifier.predict, KernelRidgeClassifier.predictOne,
      List.mapM, List.mapM.loop, npArgmax, argmaxAux, dot, deltaK, KernelObj.similarity]
  refine ⟨hpred, ?_⟩
  have := (C10_predict_returns_index (α := ℚ) (β := ℚ)).1 _ _ [(1 : ℚ)] [2] rfl hpred 2
    (by simp)
  omega


/-- C9: the hyperparameters set at construction (C, kernel name, gamma,
and for the augmented variant flip_ratio, rot_replicas, rot_ratio,
rot_angle and the HOG extractor) are never modified by fit, and predict
reads only the trained state: its result depends only on the stored
kernel object and coefficients (and extractor), so two states agreeing
there - whatever their hyperparameters - predict identically; predict
itself is a pure function of the state and cannot modify it. -/
theorem C9_config_immutable {α β : Type} (kernels : Registry α) (kernelsG : Registry β)
    (solve : Solver) (augment_dataset : Augmenter α) :
    (∀ (s s' : KernelRidgeRegressor α) (X : List α) (y : List ℚ),
      KernelRidgeRegressor.fit kernels solve s X y = Except.ok s' →
      s'.C = s.C ∧ s'.kernel = s.kernel ∧ s'.gamma = s.gamma) ∧
    (∀ (s s' : KernelRidgeClassifier α) (X : List α) (y : List ℤ),
      KernelRidgeClassifier.fit kernels solve s X y = Except.ok s' →
      s'.C = s.C ∧ s'.kernel = s.kernel ∧ s'.gamma = s.gamma) ∧
    (∀ (s s' : AugmentedHogsKernelRidgeClassifier α β) (X : List α) (y : List ℤ),
      AugmentedHogsKernelRidgeClassifier.fit kernelsG solve augment_dataset s X y =
        Except.ok s' →
      s'.C = s.C ∧ s'.kernel = s.kernel ∧ s'.gamma = s.gamma ∧
      s'.flip_ratio = s.flip_ratio ∧ s'.rot_replicas = s.rot_replicas ∧
      s'.rot_ratio = s.rot_ratio ∧ s'.rot_angle = s.rot_angle ∧
      s'.hog_extractor = s.hog_extractor) ∧
    (∀ (t u : KernelRidgeRegressor α), t.K = u.K → t.alpha = u.alpha →
      ∀ X, KernelRidgeRegressor.predict t X = KernelRidgeRegressor.predict u X) ∧
    (∀ (t u : KernelRidgeClassifier α), t.K = u.K → t.alpha = u.alpha →
      ∀ X, KernelRidgeClassifier.predict t X = KernelRidgeClassifier.predict u X) ∧
    (∀ (t u : AugmentedHogsKernelRidgeClassifier α β), t.K = u.K →
      t.alpha = u.alpha → t.hog_extractor = u.hog_extractor →
      ∀ X, AugmentedHogsKernelRidgeClassifier.predict t X =
        AugmentedHogsKernelRidgeClassifier.predict u X) := by
  refine ⟨?_, ?_, ?_, ?_, ?_, ?_⟩
  · intro s s' X y h
    unfold KernelRidgeRegressor.fit at h
    split at h
    · exact Except.noConfusion h
    · have he := Except.ok.inj h
      rw [← he]
      exact ⟨rfl, rfl, rfl⟩
  · intro s s' X y h
    unfold KernelRidgeClassifier.fit at h
    simp only [] at h
    split at h
    · exact Except.noConfusion h
    · split at h
      · exact Except.noConfusion h
      · split at h
        · exact Except.noConfusion h
        · have he := Except.ok.inj h
          rw [← he]
          exact ⟨rfl, rfl, rfl⟩
  · intro s s' X y h
    unfold AugmentedHogsKernelRidgeClassifier.fit
      AugmentedHogsKernelRidgeClassifier.fitOnFeatures at h
    simp only [] at h
    split at h
    · exact Except.noConfusion h
    · split at h
      · exact Except.noConfusion h
      · split at h
        · exact Except.noConfusion h
        · have he := Except.ok.inj h
          rw [← he]
          exact ⟨rfl, rfl, rfl, rfl, rfl, rfl, rfl, rfl⟩
  · intro t u hK ha X
    have he : KernelRidgeRegressor.predictOne t = KernelRidgeRegressor.predictOne u := by
      funext x
      simp only [KernelRidgeRegressor.predictOne, hK, ha]
    unfold KernelRidgeRegressor.predict
    rw [he]
  · intro t u hK ha X
    have he : KernelRidgeClassifier.predictOne t = KernelRidgeClassifier.predictOne u := by
      funext x
      simp only [KernelRidgeClassifier.predictOne, hK, ha]
    unfold KernelRidgeClassifier.predict
    rw [he]
  · intro t u hK ha hhog X
    have he : AugmentedHogsKernelRidgeClassifier.predictOne t =
        AugmentedHogsKernelRidgeClassifier.predictOne u := by
      funext x
      simp only [AugmentedHogsKernelRidgeClassifier.predictOne, hK, ha]
    unfold AugmentedHogsKernelRidgeClassifier.predict
    rw [he, hhog]


/-- Witness for C9 at concrete inputs: a concrete fit run keeps C,
kernel name and gamma, and two states differing in every hyperparameter
but sharing kernel object and coefficients predict identically. -/
theorem C9_config_immutable_witness :
    ((KernelRidgeRegressor.fit demoKernels halfSolve
        (KernelRidgeRegressor.init 1 ("delta") 1) [(0 : ℚ)] [2]).map
      (fun s => (s.C, s.kernel, s.gamma))) = Except.ok (1, ("delta"), 1) ∧
    KernelRidgeRegressor.predict
      { C := 1, kernel := ("delta"), gamma := 1, K := some (deltaK [0]),
        alpha := some [1] } [(0 : ℚ)] =
    KernelRidgeRegressor.predict
      { C := 5, kernel := ("changed"), gamma := 7, K := some (deltaK [0]),
        alpha := some [1] } [(0 : ℚ)] := by
  have h := C9_config_immutable (α := ℚ) (β := ℚ) demoKernels demoKernels
    halfSolve demoAugment
  have hfit : KernelRidgeRegressor.fit demoKernels halfSolve
      (KernelRidgeRegressor.init 1 ("delta") 1) [(0 : ℚ)] [2] =
      Except.ok { C := 1, kernel := ("delta"), gamma := 1, K := some (deltaK [0]),
                  alpha := some [1] } := by
    norm_num [KernelRidgeRegressor.fit, KernelRidgeRegressor.init, demoKernels,
      addRidge, matAdd, fillDiagonal, zerosLike, KernelObj.similarity_matrix,
      halfSolve, deltaK, List.range_succ]
  have _hfields := h.1 _ _ _ _ hfit
  constructor
  · rw [hfit]
    rfl
  · exact h.2.2.2.1 _ _ rfl rfl [(0 : ℚ)]


theorem exceptBind_ok {ε γ δ : Type} (a : γ) (k : γ → Except ε δ) :
    ((Except.ok a : Except ε γ) >>= k) = k a := rfl

theorem exceptBind_error {ε γ δ : Type} (e : ε) (k : γ → Except ε δ) :
    ((Except.error e : Except ε γ) >>= k) = Except.error e := rfl

/-- C5 evaluated at its failing input: on a binary training set with
labels {0, 1}, fit raises IndexError instead of producing two
coefficient vectors.  LabelBinarizer returns a single target column for
a two-class problem, and the per-class loop then asks for column 1. -/
theorem C5_failing_input_eval :
    KernelRidgeClassifier.fit demoKernels halfSolve
      (KernelRidgeClassifier.init (1/2) ("delta") 1) [(0 : ℚ), 1] [0, 1] =
      Except.error (PyError.indexError 1) ∧
    labelBinarize [0, 1] = Except.ok [[-1], [1]] := by
  constructor
  · norm_num [KernelRidgeClassifier.fit, KernelRidgeClassifier.init, demoKernels,
      labelBinarize, sortedDedup, insertSortedDedup, npCol, npColIndex, numCols, getCol,
      addRidge, matAdd, fillDiagonal, zerosLike, KernelObj.similarity_matrix,
      halfSolve, deltaK, exceptBind_ok, exceptBind_error, Except.map, Int.toNat, List.replicate, List.range_succ, List.mapM, List.mapM.loop]
  · norm_num [labelBinarize, sortedDedup, insertSortedDedup]

/-- Counterexample to C3: with training labels {-1, 0, 1} (delta kernel,
C = 1/3, so the regularized system is twice the identity and the
concrete solver is exact on it), the fitted classifier predicts 2 for
the training sample of label 0.  But 2 is not a training label at all,
so predict does not return the original training label of the class
achieving the maximum: it returns the bare argmax index. -/
theorem C3_counterexample :
    ((KernelRidgeClassifier.fit demoKernels halfSolve
        (KernelRidgeClassifier.init (1/3) ("delta") 1) [(0 : ℚ), 1, 2]
        [-1, 0, 1]).bind
      (fun s => KernelRidgeClassifier.predict s [(1 : ℚ)])) = Except.ok [2] ∧
    sortedDedup [-1, 0, 1] = [-1, 0, 1] ∧
    (2 : ℤ) ∉ ([-1, 0, 1] : List ℤ) ∧
    (deltaK [0, 1, 2]).similarity_matrix = [[1, 0, 0], [0, 1, 0], [0, 0, 1]] ∧
    addRidge [[1, 0, 0], [0, 1, 0], [0, 0, 1]] 1 = [[2, 0, 0], [0, 2, 0], [0, 0, 2]] ∧
    matVecMul [[2, 0, 0], [0, 2, 0], [0, 0, 2]]
      (halfSolve [[2, 0, 0], [0, 2, 0], [0, 0, 2]] [-1, -1, 1]) = [-1, -1, 1] ∧
    matVecMul [[2, 0, 0], [0, 2, 0], [0, 0, 2]]
      (halfSolve [[2, 0, 0], [0, 2, 0], [0, 0, 2]] [1, -1, -1]) = [1, -1, -1] ∧
    matVecMul [[2, 0, 0], [0, 2, 0], [0, 0, 2]]
      (halfSolve [[2, 0, 0], [0, 2, 0], [0, 0, 2]] [-1, 1, -1]) = [-1, 1, -1] := by
  refine ⟨?_, by decide, by decide, ?_, ?_, ?_, ?_, ?_⟩
  · norm_num [KernelRidgeClassifier.fit, KernelRidgeClassifier.init,
      KernelRidgeClassifier.predict, KernelRidgeClassifier.predictOne, demoKernels,
      labelBinarize, sortedDedup, insertSortedDedup, npCol, npColIndex, numCols, getCol,
      addRidge, matAdd, fillDiagonal, zerosLike, KernelObj.similarity_matrix,
      KernelObj.similarity, halfSolve, deltaK, dot, npArgmax, argmaxAux, exceptBind_ok, exceptBind_error, Except.bind, Except.map, Int.toNat, List.replicate,
      List.range_succ, List.mapM, List.mapM.loop]
  · norm_num [deltaK, KernelObj.similarity_matrix]
  · norm_num [addRidge, matAdd, fillDiagonal, zerosLike, List.replicate, List.range_succ]
  · norm_num [matVecMul, dot, halfSolve]
  · norm_num [matVecMul, dot, halfSolve]
  · norm_num [matVecMul, dot, halfSolve]

/-- C7: in the augmented classifier, fit applies dataset augmentation
first and feature extraction second, and the chain after those two
steps is the plain per-feature fit; predict applies only the same
feature extraction (through the extractor stored at construction) and
no augmentation: its result does not depend on the augmentation
hyperparameters, and its type takes no augmentation collaborator. -/
theorem C7_augmentation_only_in_fit {α β : Type} (kernels : Registry β)
    (solve : Solver) (augment_dataset : Augmenter α)
    (s : AugmentedHogsKernelRidgeClassifier α β) (X : List α) (y : List ℤ) :
    AugmentedHogsKernelRidgeClassifier.fit kernels solve augment_dataset s X y =
      AugmentedHogsKernelRidgeClassifier.fitOnFeatures kernels solve s
        (s.hog_extractor
          (augment_dataset X y s.flip_ratio s.rot_replicas s.rot_ratio s.rot_angle).1)
        (augment_dataset X y s.flip_ratio s.rot_replicas s.rot_ratio s.rot_angle).2 ∧
    AugmentedHogsKernelRidgeClassifier.predict s X =
      (s.hog_extractor X).mapM (AugmentedHogsKernelRidgeClassifier.predictOne s) ∧
    (∀ (fr rr : ℚ) (nr : ℕ) (ra : ℚ),
      AugmentedHogsKernelRidgeClassifier.predict
        { s with flip_ratio := fr, rot_ratio := rr, rot_replicas := nr,
                 rot_angle := ra } X =
      AugmentedHogsKernelRidgeClassifier.predict s X) := by
  refine ⟨rfl, rfl, ?_⟩
  intro fr rr nr ra
  rfl


theorem getD_map_of_lt {γ δ : Type} (f : γ → δ) (l : List γ) (i : ℕ)
    (hi : i < l.length) (d : γ) (e : δ) : (l.map f).getD i e = f (l.getD i d) := by
  rw [List.getD_eq_getD_get?, List.getD_eq_getD_get?, List.get?_map,
    get?_of_lt l i hi d]
  rfl

/-- C3 amended: for a fitted classifier, predict computes per input
sample the dot product of every stored coefficient vector with the
similarity vector of the sample and returns the position of the first
maximal score in the coefficient array (the sorted-class index; ties go
to the lowest index).  No mapping back to the original labels takes
place, so the output coincides with the original label only when the
distinct training labels are exactly 0..k-1. -/
theorem C3_amended_predict_argmax_index {α : Type} (s : KernelRidgeClassifier α)
    (Kobj : KernelObj α) (alphas : List (List ℚ)) (hK : s.K = some Kobj)
    (ha : s.alpha = some alphas) (x : α) (m : ℕ)
    (h : KernelRidgeClassifier.predict s [x] = Except.ok [m]) :
    m < alphas.length ∧
    (∀ i, i < alphas.length →
      dot (alphas.getD i []) (Kobj.similarity x) ≤
        dot (alphas.getD m []) (Kobj.similarity x)) ∧
    (∀ i, i < m →
      dot (alphas.getD i []) (Kobj.similarity x) <
        dot (alphas.getD m []) (Kobj.similarity x)) := by
  have h1 : KernelRidgeClassifier.predictOne s x = Except.ok m := by
    unfold KernelRidgeClassifier.predict at h
    rcases hp : KernelRidgeClassifier.predictOne s x with e | r
    · rw [List.mapM_cons, hp] at h
      exact absurd h (by simp [exceptBind_error])
    · rw [List.mapM_cons, hp, List.mapM_nil] at h
      have h2 : [r] = [m] := Except.ok.inj h
      have h3 : r = m := by
        simpa using h2
      exact congrArg Except.ok h3
  unfold KernelRidgeClassifier.predictOne at h1
  rw [hK] at h1
  rw [ha] at h1
  have hspec := npArgmax_spec _ m h1
  have hlen : (alphas.map (fun a => dot a (Kobj.similarity x))).length = alphas.length :=
    List.length_map _ _
  have hm : m < alphas.length := by
    rw [← hlen]
    exact hspec.1
  refine ⟨hm, ?_, ?_⟩
  · intro i hi
    have hle := hspec.2.1 i (by rw [hlen]; exact hi)
    rwa [getD_map_of_lt _ alphas i hi [], getD_map_of_lt _ alphas m hm []] at hle
  · intro i hi
    have hlt := hspec.2.2 i hi
    rwa [getD_map_of_lt _ alphas i (lt_trans hi hm) [],
      getD_map_of_lt _ alphas m hm []] at hlt

/-- Witness for the amended C3: the fitted three-class state of the C3
scenario predicts index 2 on sample 1; the theorem yields that the
class-0 score is strictly below the class-2 score and that 2 is a valid
index among the three coefficient vectors. -/
theorem C3_amended_predict_argmax_index_witness :
    dot ([[-(1/2), -(1/2), 1/2], [1/2, -(1/2), -(1/2)],
          [-(1/2), 1/2, -(1/2)]].getD 0 []) ((deltaK [0, 1, 2]).similarity 1) <
      dot ([[-(1/2), -(1/2), 1/2], [1/2, -(1/2), -(1/2)],
            [-(1/2), 1/2, -(1/2)]].getD 2 []) ((deltaK [0, 1, 2]).similarity 1) ∧
    (2 : ℕ) < 3 := by
  have hpred : KernelRidgeClassifier.predict
      { C := 1/3, kernel := ("delta"), gamma := 1, K := some (deltaK [0, 1, 2]),
        alpha := some [[-(1/2), -(1/2), 1/2], [1/2, -(1/2), -(1/2)],
                       [-(1/2), 1/2, -(1/2)]] } [(1 : ℚ)] = Except.ok [2] := by
    norm_num [KernelRidgeClassifier.predict, KernelRidgeClassifier.predictOne,
      List.mapM, List.mapM.loop, npArgmax, argmaxAux, dot, deltaK,
      KernelObj.similarity]
  have h := C3_amended_predict_argmax_index _ (deltaK [0, 1, 2])
    [[-(1/2), -(1/2), 1/2], [1/2, -(1/2), -(1/2)], [-(1/2), 1/2, -(1/2)]]
    rfl rfl (1 : ℚ) 2 hpred
  exact ⟨h.2.2 0 (by omega), h.1⟩

/-- Counterexample to C4: with training labels {-1, 0, 1} fit runs
without error, but the coefficient vector stored at index 0 is not the
solution for the one-vs-all targets of the first sorted class (-1): the
label values are used directly as column indices into the binarized
matrix, so with negative labels the class-to-column correspondence is
scrambled (numpy wraps the index -1 to the last column). -/
theorem C4_counterexample :
    ((KernelRidgeClassifier.fit demoKernels halfSolve
        (KernelRidgeClassifier.init (1/3) ("delta") 1) [(0 : ℚ), 1, 2]
        [-1, 0, 1]).map (fun s => s.alpha)) =
      Except.ok (some [[-(1/2), -(1/2), 1/2], [1/2, -(1/2), -(1/2)],
                       [-(1/2), 1/2, -(1/2)]]) ∧
    sortedDedup [-1, 0, 1] = [-1, 0, 1] ∧
    specOneVsAll [-1, 0, 1] (-1) = [1, -1, -1] ∧
    halfSolve [[2, 0, 0], [0, 2, 0], [0, 0, 2]] (specOneVsAll [-1, 0, 1] (-1)) =
      [1/2, -(1/2), -(1/2)] ∧
    [[-(1/2), -(1/2), 1/2], [1/2, -(1/2), -(1/2)],
     [-(1/2), 1/2, -(1/2)]].getD 0 [] ≠ ([1/2, -(1/2), -(1/2)] : List ℚ) := by
  refine ⟨?_, by decide, ?_, ?_, ?_⟩
  · norm_num [KernelRidgeClassifier.fit, KernelRidgeClassifier.init, demoKernels,
      labelBinarize, sortedDedup, insertSortedDedup, npCol, npColIndex, numCols, getCol,
      addRidge, matAdd, fillDiagonal, zerosLike, KernelObj.similarity_matrix,
      halfSolve, deltaK, exceptBind_ok, exceptBind_error, Except.bind, Except.map,
      Int.toNat, List.replicate, List.range_succ, List.mapM, List.mapM.loop]
  · norm_num [specOneVsAll]
  · norm_num [specOneVsAll, halfSolve]
  · norm_num


theorem range_getD (k i : ℕ) (hi : i < k) : (List.range k).getD i 0 = i := by
  rw [List.getD_eq_getD_get?, List.get?_range hi]
  rfl

/-- C4 amended: when the distinct training labels are exactly 0..k-1
with k at least 3, fit performs one solve per class in sorted label
order, each against the one-vs-all {1, -1} target column of that class,
and stores the resulting vector at the sorted index of the class.  (With exactly
two classes fit raises IndexError, and with other label sets it raises
or scrambles the class-to-column correspondence, because the label
value itself is used as the column index.) -/
theorem C4_amended_one_solve_per_class {α : Type} (kernels : Registry α)
    (solve : Solver) (C gamma : ℚ) (name : String)
    (ctor : List α → ℚ → KernelObj α) (hname : kernels name = some ctor)
    (X : List α) (y : List ℤ) (k : ℕ) (hk : 3 ≤ k)
    (hclasses : sortedDedup y = (List.range k).map Int.ofNat) :
    KernelRidgeClassifier.fit kernels solve
      (KernelRidgeClassifier.init C name gamma) X y =
      Except.ok { C := C, kernel := name, gamma := gamma, K := some (ctor X gamma),
                  alpha := some ((List.range k).map (fun i =>
                    solve (addRidge (ctor X gamma).similarity_matrix (C * X.length))
                      (specOneVsAll y (Int.ofNat i)))) } := by
  have hlen : (sortedDedup y).length = k := by
    rw [hclasses]
    simp
  have hy_ne : y ≠ [] := by
    intro h0
    rw [h0] at hlen
    simp [sortedDedup] at hlen
    omega
  have hY : labelBinarize y = Except.ok (y.map (fun v =>
      (sortedDedup y).map (fun c => if v = c then (1 : ℚ) else -1))) := by
    simp only [labelBinarize]
    rw [hlen, if_neg (by omega), if_neg (by omega), if_neg (by omega)]
  have hnc : numCols (y.map (fun v =>
      (sortedDedup y).map (fun c => if v = c then (1 : ℚ) else -1))) = k := by
    cases y with
    | nil => exact absurd rfl hy_ne
    | cons a ys =>
      show ((sortedDedup (a :: ys)).map _).length = k
      rw [List.length_map]
      exact hlen
  have hgetCol : ∀ i : ℕ, i < k →
      getCol (y.map (fun v =>
        (sortedDedup y).map (fun c => if v = c then (1 : ℚ) else -1))) i =
      specOneVsAll y (Int.ofNat i) := by
    intro i hi
    unfold getCol specOneVsAll
    rw [List.map_map]
    congr 1
    funext v
    show ((sortedDedup y).map (fun c => if v = c then (1 : ℚ) else -1)).getD i 0 =
      if v = Int.ofNat i then (1 : ℚ) else -1
    rw [getD_map_of_lt _ (sortedDedup y) i (by omega) 0]
    rw [hclasses, getD_map_of_lt Int.ofNat (List.range k) i (by simpa using hi) 0]
    rw [range_getD k i hi]
  have hcol : ∀ i : ℕ, i < k →
      npCol (y.map (fun v =>
        (sortedDedup y).map (fun c => if v = c then (1 : ℚ) else -1)))
        (Int.ofNat i) =
      Except.ok (specOneVsAll y (Int.ofNat i)) := by
    intro i hi
    unfold npCol
    have hidx : npColIndex (numCols (y.map (fun v =>
        (sortedDedup y).map (fun c => if v = c then (1 : ℚ) else -1))))
        (Int.ofNat i) = some i := by
      unfold npColIndex
      rw [hnc, if_pos ⟨Int.ofNat_nonneg i, Int.ofNat_lt.mpr hi⟩]
      simp
    simp only [hidx]
    rw [hgetCol i hi]
  have hmapM : (sortedDedup y).mapM (fun c =>
      (npCol (y.map (fun v =>
        (sortedDedup y).map (fun c => if v = c then (1 : ℚ) else -1))) c).map
        (fun col =>
          solve (addRidge (ctor X gamma).similarity_matrix (C * X.length)) col)) =
      Except.ok ((List.range k).map (fun i =>
        solve (addRidge (ctor X gamma).similarity_matrix (C * X.length))
          (specOneVsAll y (Int.ofNat i)))) := by
    have hall := mapM_ok_of_forall
      (fun c =>
        (npCol (y.map (fun v =>
          (sortedDedup y).map (fun c => if v = c then (1 : ℚ) else -1))) c).map
          (fun col =>
            solve (addRidge (ctor X gamma).similarity_matrix (C * X.length)) col))
      (fun c =>
        solve (addRidge (ctor X gamma).similarity_matrix (C * X.length))
          (specOneVsAll y c))
      (sortedDedup y) ?_
    · rw [hall, hclasses, List.map_map]
      rfl
    · intro c hc
      rw [hclasses] at hc
      rcases List.mem_map.mp hc with ⟨i, hi, rfl⟩
      simp only [hcol i (List.mem_range.mp hi)]
      rfl
  unfold KernelRidgeClassifier.fit KernelRidgeClassifier.init
  simp only [hY, hname]
  rw [hmapM]


/-- Witness for the amended C4: labels 0, 1, 2 on three training
samples; the three stored coefficient vectors are the solves of the
three one-vs-all columns in sorted class order. -/
theorem C4_amended_one_solve_per_class_witness :
    ((KernelRidgeClassifier.fit demoKernels halfSolve
        (KernelRidgeClassifier.init (1/3) ("delta") 1) [(0 : ℚ), 1, 2]
        [0, 1, 2]).map (fun s => s.alpha)) =
      Except.ok (some [[1/2, -(1/2), -(1/2)], [-(1/2), 1/2, -(1/2)],
                       [-(1/2), -(1/2), 1/2]]) := by
  have h := C4_amended_one_solve_per_class demoKernels halfSolve (1/3) 1 ("delta")
    (fun X _ => { train := X, k := fun a b => if a = b then 1 else 0 }) rfl
    [(0 : ℚ), 1, 2] [0, 1, 2] 3 (by omega) (by decide)
  rw [h]
  norm_num [specOneVsAll, halfSolve, addRidge, matAdd, fillDiagonal, zerosLike,
    KernelObj.similarity_matrix, deltaK, Except.map, List.replicate, List.range_succ]

end Models
